import Mathlib

/-!
Verification of the ScholarLens AI paper-visualization application.

This file gives a shallow embedding of the state and operations of the
application (the `App` controller in `src/App.tsx` and its revised variant,
the `InputModal` component, the `ConceptNetwork` concept grid, and the
`HeroScene` theme tables of the `DynamicScene` variants), and proves the
behavioural properties claimed of them.

JavaScript strings are modelled as Lean `String`; the character-level
operations `substring`, `trim`, `toLowerCase` and `includes` are modelled
on the underlying character list.  Asynchronous operations (file encoding,
the generative-AI API call) are modelled by `Except` parameters giving the
outcome of the awaited step, and `handleAnalyze` becomes a pure state
transition returning the new state together with the trace of UI status
labels (and, for the legacy variant, the list of alert messages shown).
-/

/-- Models `String.prototype.substring(0, n)` at the character level. -/
def jsSubstring (s : String) (n : Nat) : String :=
  ⟨s.data.take n⟩

/-- Models `String.prototype.trim`: strip whitespace from both ends. -/
def jsTrim (s : String) : String :=
  ⟨((s.data.dropWhile Char.isWhitespace).reverse.dropWhile Char.isWhitespace).reverse⟩

/-- Models `String.prototype.toLowerCase` at the character level. -/
def jsToLower (s : String) : String :=
  ⟨s.data.map Char.toLower⟩

/-- Models `hay.includes(needle)`: substring containment. -/
def jsIncludes (hay needle : String) : Bool :=
  decide (needle.data <:+: hay.data)

/-- An author entry `{ name, role }` from `src/types.ts` (`PaperData.authors`). -/
structure Author where
  name : String
  role : String
deriving Repr, DecidableEq

/-- A `KeyConcept` from `src/types.ts`.  The `type` field is a string at
runtime (the schema constrains it to process/structure/abstract). -/
structure KeyConcept where
  title : String
  description : String
  type : String
deriving Repr, DecidableEq

/-- The `PaperData` record from `src/types.ts`.  Optional fields are
`Option`; `theme` is the runtime string (typed `PaperTheme` in TS). -/
structure PaperData where
  title : String
  subtitle : String
  journal : Option String
  date : Option String
  authors : List Author
  summary : String
  introTitle : Option String
  theme : String
  concepts : List KeyConcept
  impact : String
  url : Option String
deriving Repr, DecidableEq

/-- The six members of the `PaperTheme` union type (`src/types.ts`). -/
def paperThemes : List String :=
  ["quantum", "ai", "biology", "cosmos", "material", "general"]

/-- The hardcoded default record `ALPHA_QUBIT_DATA` (identical in
`src/App.tsx` and the revised `App` variant). -/
def ALPHA_QUBIT_DATA : PaperData where
  title := "AlphaQubit"
  subtitle := "AI for Quantum Error Correction"
  journal := some "Nature • Nov 2024"
  date := none
  introTitle := some "The Noise Barrier"
  summary := "Building a large-scale quantum computer requires correcting the errors that inevitably arise in physical systems. The state of the art is the Surface Code. AlphaQubit uses machine learning to learn complex error patterns directly from the quantum processor, achieving accuracy far beyond human-designed algorithms."
  authors := [
    ⟨"Johannes Bausch", "Google DeepMind"⟩,
    ⟨"Andrew W. Senior", "Google DeepMind"⟩,
    ⟨"Francisco J. H. Heras", "Google DeepMind"⟩,
    ⟨"Thomas Edlich", "Google DeepMind"⟩,
    ⟨"Michael Newman", "Google Quantum AI"⟩]
  theme := "quantum"
  concepts := []
  impact := "AlphaQubit maintains its advantage even as the code distance increases. By learning from data directly, machine learning decoders can adapt to the unique quirks of each quantum processor, potentially reducing the hardware requirements for useful quantum computing."
  url := some "https://doi.org/10.1038/s41586-024-08148-8"

/-- The shape of the JSON object the analysis call is asked to return:
`JSON.parse` of the response text, whose fields follow the response schema.
A missing or empty `title` is represented by `title = ""` (both are falsy
in the `data.title` check of the source). -/
structure ParsedData where
  title : String
  subtitle : String
  journal : String
  introTitle : String
  summary : String
  authors : List Author
  theme : String
  concepts : List KeyConcept
  impact : String
deriving Repr, DecidableEq

/-- The Gemini response-schema AST fragment used by the app: objects with
named properties, arrays with an item schema, and strings with an optional
enum (`Type.OBJECT`, `Type.ARRAY`, `Type.STRING` in the source). -/
inductive GType where
  | string (enum : Option (List String))
  | object (properties : List (String × GType))
  | array (items : GType)
deriving Repr

/-- The `responseSchema` object literal built in `handleAnalyze`
(lines 182-211 of `src/App.tsx`; the revised variant builds the identical
literal at lines 174-204). -/
def analysisResponseSchema : GType :=
  .object [
    ("title", .string none),
    ("subtitle", .string none),
    ("journal", .string none),
    ("introTitle", .string none),
    ("summary", .string none),
    ("authors", .array (.object [("name", .string none), ("role", .string none)])),
    ("theme", .string (some ["quantum", "ai", "biology", "cosmos", "material", "general"])),
    ("concepts", .array (.object [
        ("title", .string none),
        ("description", .string none),
        ("type", .string (some ["process", "structure", "abstract"]))])),
    ("impact", .string none)]

/-- The property list of an object schema (empty for non-objects). -/
def GType.props : GType → List (String × GType)
  | .object ps => ps
  | _ => []

/-- One part of the `contents` payload: an inlined file or a text part. -/
inductive ContentPart where
  | inlineData (mimeType : String) (data : String)
  | text (s : String)
deriving Repr, DecidableEq

/-- The prompt template literal of `handleAnalyze` in `src/App.tsx`
(lines 146-158). -/
def promptInstructionsApp : String :=
  "\n        Analyze the provided research paper (either text or PDF). \n        Extract the following fields in JSON format:\n        1. title (string)\n        2. subtitle (string, short 5-7 words tagline)\n        3. journal (string, e.g. \"Nature • 2024\", optional)\n        4. introTitle (string, 2-3 words catchy title for introduction)\n        5. summary (string, 2-3 paragraphs explaining the core problem and solution)\n        6. authors (array of objects \x7bname, role\x7d) - if role unknown use \"Researcher\"\n        7. theme (enum: \x27quantum\x27, \x27ai\x27, \x27biology\x27, \x27cosmos\x27, \x27material\x27, \x27general\x27) - pick best fit for visuals.\n        8. concepts (array of 3 objects \x7btitle, description, type\x7d) - type must be \x27process\x27, \x27structure\x27, or \x27abstract\x27.\n        9. impact (string, 1 paragraph on future implications)\n      "

/-- The prompt template literal of `handleAnalyze` in the revised `App`
variant (lines 138-150). -/
def promptInstructions3 : String :=
  "\n        Analyze the provided research paper (text or PDF). \n        Extract fields in JSON:\n        1. title (string)\n        2. subtitle (string, 5-7 words)\n        3. journal (string, optional)\n        4. introTitle (string, catchy)\n        5. summary (string, 2-3 paragraphs. IMPORTANT: Use \\n to separate paragraphs.)\n        6. authors (array of \x7bname, role\x7d)\n        7. theme (enum: \x27quantum\x27, \x27ai\x27, \x27biology\x27, \x27cosmos\x27, \x27material\x27, \x27general\x27)\n        8. concepts (array of 3 objects \x7btitle, description, type: \x27process\x27|\x27structure\x27|\x27abstract\x27\x7d)\n        9. impact (string, 1 paragraph)\n      "

/-- The `contentsPayload` built by `handleAnalyze` in `src/App.tsx`
(lines 160-175): with a file, the inlined PDF followed by the prompt plus
the untruncated user notes; without a file, the prompt plus the first
30000 characters of the pasted text.  `base64` is the (already awaited)
result of `fileToBase64`. -/
def buildPayloadApp (inputText : String) (base64 : Option String) : List ContentPart :=
  match base64 with
  | some b =>
      [ContentPart.inlineData "application/pdf" b,
       ContentPart.text (promptInstructionsApp ++ "\n\nAdditional user notes: " ++ inputText)]
  | none =>
      [ContentPart.text (promptInstructionsApp ++ "\n\nPaper Text to analyze:\n" ++ jsSubstring inputText 30000)]

/-- The `contentsPayload` built by `handleAnalyze` in the revised `App`
variant (lines 152-162). -/
def buildPayload3 (text : String) (base64 : Option String) : List ContentPart :=
  match base64 with
  | some b =>
      [ContentPart.inlineData "application/pdf" b,
       ContentPart.text (promptInstructions3 ++ "\n\nUser Notes: " ++ text)]
  | none =>
      [ContentPart.text (promptInstructions3 ++ "\n\nPaper Text:\n" ++ jsSubstring text 30000)]

/-- The argument record of `ai.models.generateContent`. -/
structure GenRequest where
  model : String
  contents : List ContentPart
  responseMimeType : String
  responseSchema : GType
deriving Repr

/-- The request sent by `handleAnalyze` in `src/App.tsx` (lines 177-213). -/
def buildRequestApp (inputText : String) (base64 : Option String) : GenRequest where
  model := "gemini-2.5-flash"
  contents := buildPayloadApp inputText base64
  responseMimeType := "application/json"
  responseSchema := analysisResponseSchema

/-- The request sent by `handleAnalyze` in the revised `App` variant
(lines 169-205). -/
def buildRequest3 (text : String) (base64 : Option String) : GenRequest where
  model := "gemini-2.5-flash"
  contents := buildPayload3 text base64
  responseMimeType := "application/json"
  responseSchema := analysisResponseSchema

/-- The theme coercion of the revised `handleAnalyze` (line 212 of the
revised `App` variant): keep the parsed theme if it is one of the five
explicitly listed values, otherwise fall back to general. -/
def validTheme (t : String) : String :=
  if ["quantum", "ai", "biology", "cosmos", "material"].contains t then t else "general"

/-- The record stored by a successful analysis in the revised `App` variant
(lines 214-218): the parsed response with the coerced theme and a url
field. -/
def parsedToPaper3 (d : ParsedData) : PaperData where
  title := d.title
  subtitle := d.subtitle
  journal := some d.journal
  date := none
  authors := d.authors
  summary := d.summary
  introTitle := some d.introTitle
  theme := validTheme d.theme
  concepts := d.concepts
  impact := d.impact
  url := some "#"

/-- The record stored by a successful analysis in `src/App.tsx`
(lines 217-220): the parsed response spread verbatim plus a url field
(no theme coercion). -/
def parsedToPaperApp (d : ParsedData) : PaperData where
  title := d.title
  subtitle := d.subtitle
  journal := some d.journal
  date := none
  authors := d.authors
  summary := d.summary
  introTitle := some d.introTitle
  theme := d.theme
  concepts := d.concepts
  impact := d.impact
  url := some "#"

/-- The page-level state of the revised `App` variant (its `useState`
hooks that the analysis workflow touches). -/
structure AppState3 where
  showInputModal : Bool
  paperData : PaperData
  isCustom : Bool
  isAnalyzing : Bool
  analysisStep : String
  analysisError : Option String
deriving Repr, DecidableEq

/-- The generic failure message set by the revised `handleAnalyze`
(line 225). -/
def analysisFailedMsg3 : String :=
  "Failed to analyze the document. The PDF might be corrupted, too large, or password protected. Please try again."

/-- The tail of the revised `handleAnalyze` after the payload was built
(lines 207-228): parse the response, reject a missing title, otherwise
store the coerced record, mark it custom, and close the modal; the catch
sets the generic error and the finally clears `isAnalyzing`.  `api` is the
combined outcome of the awaited API call and `JSON.parse` (an exception in
either is caught by the same `catch`). -/
def handleAnalyzeApi3 (s : AppState3) (api : Except Unit ParsedData) : AppState3 :=
  match api with
  | Except.error _ =>
      { s with analysisError := some analysisFailedMsg3, isAnalyzing := false }
  | Except.ok d =>
      if d.title = "" then
        { s with analysisError := some analysisFailedMsg3, isAnalyzing := false }
      else
        { s with
            paperData := parsedToPaper3 d
            isCustom := true
            showInputModal := false
            isAnalyzing := false }

/-- The revised `handleAnalyze` (lines 129-229) as a state transition.
`file` is `none` when no file is selected, and otherwise carries the
outcome of the awaited `fileToBase64` call.  The second component is the
trace of values assigned to `analysisStep` during the run, in order. -/
def handleAnalyze3 (s : AppState3) (text : String)
    (file : Option (Except Unit String)) (api : Except Unit ParsedData) :
    AppState3 × List String :=
  let s0 := { s with isAnalyzing := true, analysisError := none, analysisStep := "uploading" }
  match file with
  | some (Except.error _) =>
      ({ s0 with
          analysisStep := "reading"
          analysisError := some analysisFailedMsg3
          isAnalyzing := false },
       ["uploading", "reading"])
  | some (Except.ok _) =>
      (handleAnalyzeApi3 { s0 with analysisStep := "generating" } api,
       ["uploading", "reading", "analyzing", "generating"])
  | none =>
      (handleAnalyzeApi3 { s0 with analysisStep := "generating" } api,
       ["uploading", "reading", "analyzing", "generating"])

/-- `resetToDemo` of the revised `App` variant (lines 231-236). -/
def resetToDemo3 (s : AppState3) : AppState3 :=
  { s with paperData := ALPHA_QUBIT_DATA, isCustom := false, showInputModal := false }

/-- A `File` object as far as the handlers consult it. -/
structure FileRec where
  name : String
  size : Nat
  type : String
deriving Repr, DecidableEq

/-- The page-level state of `src/App.tsx` (the hooks the analysis workflow
touches; this variant keeps the input text and selected file in the page
state). -/
structure AppStateA where
  showInputModal : Bool
  paperData : PaperData
  isCustom : Bool
  inputText : String
  selectedFile : Option FileRec
  isAnalyzing : Bool
deriving Repr, DecidableEq

/-- The generic alert shown by `handleAnalyze` in `src/App.tsx`
(line 227). -/
def analysisFailedMsgApp : String :=
  "Could not analyze text. Please try again. If uploading a large PDF, ensure your network is stable."

/-- The tail of the `handleAnalyze` of `src/App.tsx` after the payload was
built (lines 215-230): a response with a truthy title replaces the record,
marks it custom and closes the modal; a response without a title does
nothing; an exception is caught and reported with one alert.  The second
component is the list of alert messages shown. -/
def handleAnalyzeApiApp (s : AppStateA) (api : Except Unit ParsedData) :
    AppStateA × List String :=
  match api with
  | Except.error _ => ({ s with isAnalyzing := false }, [analysisFailedMsgApp])
  | Except.ok d =>
      if d.title = "" then
        ({ s with isAnalyzing := false }, [])
      else
        ({ s with
            paperData := parsedToPaperApp d
            isCustom := true
            showInputModal := false
            isAnalyzing := false }, [])

/-- `handleAnalyze` of `src/App.tsx` (lines 139-231) as a state
transition.  The guard returns unchanged when the trimmed text is empty
and no file is selected; `encode` is the outcome of the awaited
`fileToBase64` call (consulted only when a file is selected). -/
def handleAnalyzeApp (s : AppStateA) (encode : Except Unit String)
    (api : Except Unit ParsedData) : AppStateA × List String :=
  if jsTrim s.inputText = "" ∧ s.selectedFile = none then (s, [])
  else
    let s0 := { s with isAnalyzing := true }
    match s.selectedFile with
    | some _ =>
        match encode with
        | Except.error _ => ({ s0 with isAnalyzing := false }, [analysisFailedMsgApp])
        | Except.ok _ => handleAnalyzeApiApp s0 api
    | none => handleAnalyzeApiApp s0 api

/-- `resetToDemo` of `src/App.tsx` (lines 233-240); this variant also
clears the selected file and the input text. -/
def resetToDemoApp (s : AppStateA) : AppStateA :=
  { s with
      paperData := ALPHA_QUBIT_DATA
      isCustom := false
      showInputModal := false
      selectedFile := none
      inputText := "" }

/-- The alert text of the PDF check (`src/components/InputModal.tsx`
line 53 and `src/App.tsx` line 134). -/
def pdfAlertMsg : String := "Please upload a PDF file."

/-- `validateAndSetFile` of `src/components/InputModal.tsx` (lines 48-56),
reached from both the file-selection handler and the drop handler: a PDF
becomes the selected file, anything else raises one alert and leaves the
selection unchanged.  The first argument is the current selected-file
state, the result pairs the new selection with the alerts shown. -/
def validateAndSetFile (selected : Option FileRec) (file : Option FileRec) :
    Option FileRec × List String :=
  match file with
  | none => (selected, [])
  | some f =>
      if f.type = "application/pdf" then (some f, [])
      else (selected, [pdfAlertMsg])

/-- `handleFileSelect` of `src/App.tsx` (lines 128-137): the same check
applied to `event.target.files?.[0]`. -/
def handleFileSelectApp (selected : Option FileRec) (file : Option FileRec) :
    Option FileRec × List String :=
  match file with
  | none => (selected, [])
  | some f =>
      if f.type = "application/pdf" then (some f, [])
      else (selected, [pdfAlertMsg])

/-- The `steps` array of the `InputModal` loading view
(`src/components/InputModal.tsx` lines 60-65). -/
def inputModalSteps : List (String × String) :=
  [("uploading", "Processing Document"),
   ("reading", "Extracting Text & Figures"),
   ("analyzing", "Identifying Key Concepts"),
   ("generating", "Constructing Visualization")]

/-- The canonical order of the analysis status labels. -/
def analysisStepOrder : List String :=
  ["uploading", "reading", "analyzing", "generating"]

/-- The color entry of the `THEME_COLORS` table in the `DynamicScene`
variants. -/
structure SceneColors where
  primary : String
  secondary : String
  bg : String
deriving Repr, DecidableEq

/-- `THEME_COLORS.quantum`, also the fallback of the lookup. -/
def quantumSceneColors : SceneColors := ⟨"#C5A059", "#4F46E5", "#000"⟩

/-- `THEME_COLORS.general`. -/
def generalSceneColors : SceneColors := ⟨"#78716C", "#1C1917", "#1c1917"⟩

/-- The `THEME_COLORS` record of the `DynamicScene` variants (identical in
both), as an association list keyed by the theme string. -/
def THEME_COLORS : List (String × SceneColors) :=
  [("quantum", quantumSceneColors),
   ("ai", ⟨"#10B981", "#EC4899", "#111"⟩),
   ("biology", ⟨"#84CC16", "#06B6D4", "#0f172a"⟩),
   ("cosmos", ⟨"#F59E0B", "#6366F1", "#000"⟩),
   ("material", ⟨"#EF4444", "#64748B", "#1c1917"⟩),
   ("general", generalSceneColors)]

/-- `const colors = THEME_COLORS[theme] || THEME_COLORS.quantum` of the
`HeroScene` in the larger `DynamicScene` variant: an unknown theme falls
back to the quantum entry. -/
def heroColorsDyn (theme : String) : SceneColors :=
  (THEME_COLORS.lookup theme).getD quantumSceneColors

/-- The `safeTheme` computation of the `HeroScene` in the rigged
`DynamicScene` variant (line 408): the theme itself when it is a key of
`THEME_COLORS`, otherwise the general key. -/
def safeTheme001 (theme : String) : String :=
  if (THEME_COLORS.lookup theme).isSome then theme else "general"

/-- `const colors = THEME_COLORS[safeTheme]` of the rigged variant.  The
source indexes directly because `safeTheme` is always a key of the table;
the default of `getD` is never consulted (proved below). -/
def heroColors001 (theme : String) : SceneColors :=
  (THEME_COLORS.lookup (safeTheme001 theme)).getD generalSceneColors

/-- The shaped entry of the `THEMES` table in the original `DynamicScene`
variant. -/
structure SceneShapeConfig where
  primary : String
  secondary : String
  shape : String
deriving Repr, DecidableEq

/-- `THEMES.quantum`, also the fallback of the lookup. -/
def quantumThemeConfig : SceneShapeConfig := ⟨"#C5A059", "#4F46E5", "sphere"⟩

/-- The `THEMES` record of the original `DynamicScene` variant (lines
26-33), as an association list keyed by the theme string. -/
def THEMES : List (String × SceneShapeConfig) :=
  [("quantum", quantumThemeConfig),
   ("ai", ⟨"#10B981", "#EC4899", "box"⟩),
   ("biology", ⟨"#84CC16", "#06B6D4", "icosahedron"⟩),
   ("cosmos", ⟨"#F59E0B", "#6366F1", "sphere"⟩),
   ("material", ⟨"#EF4444", "#64748B", "cone"⟩),
   ("general", ⟨"#78716C", "#1C1917", "box"⟩)]

/-- `const config = THEMES[theme] || THEMES.quantum` of the `HeroScene`
in the original `DynamicScene` variant (line 92). -/
def heroConfig000 (theme : String) : SceneShapeConfig :=
  (THEMES.lookup theme).getD quantumThemeConfig

/-- The predicate of the concept filter in `ConceptNetwork`
(`src/unnamed/part_002` lines 49-52): case-insensitive containment of the
search term in the title or the description. -/
def conceptMatches (searchTerm : String) (c : KeyConcept) : Bool :=
  jsIncludes (jsToLower c.title) (jsToLower searchTerm) ||
  jsIncludes (jsToLower c.description) (jsToLower searchTerm)

/-- The `filteredConcepts` memo of `ConceptNetwork` (lines 47-53): the
concept list itself for an empty search term, the filtered list
otherwise. -/
def filteredConcepts (searchTerm : String) (concepts : List KeyConcept) :
    List KeyConcept :=
  if searchTerm = "" then concepts
  else concepts.filter (conceptMatches searchTerm)

/-- The result count displayed under the search bar (line 91):
`filteredConcepts.length`. -/
def displayedResultCount (searchTerm : String) (concepts : List KeyConcept) : Nat :=
  (filteredConcepts searchTerm concepts).length

/-- A successful association-list lookup returns one of the stored
values. -/
theorem lookup_mem_snd {β : Type} {l : List (String × β)} {k : String} {v : β}
    (h : l.lookup k = some v) : v ∈ l.map Prod.snd := by
  induction l with
  | nil => simp at h
  | cons p tl ih =>
    obtain ⟨a, b⟩ := p
    rw [List.lookup] at h
    rcases hk : (k == a) with _ | _ <;> rw [hk] at h
    · exact List.mem_cons_of_mem _ (ih h)
    · simp at h
      simp [h]

/-- The empty search term matches every concept. -/
theorem conceptMatches_empty (c : KeyConcept) : conceptMatches "" c = true := by
  have h : jsToLower "" = ⟨[]⟩ := rfl
  simp only [conceptMatches, jsIncludes, h, Bool.or_eq_true, decide_eq_true_eq]
  exact Or.inl List.nil_infix

/-- The five-element coercion list is contained in the theme enum, so a
theme outside the enum fails the coercion test. -/
theorem validTheme_mem (t : String) : validTheme t ∈ paperThemes := by
  unfold validTheme
  split
  · rename_i h
    simp only [List.contains, List.elem_eq_mem, decide_eq_true_eq] at h
    simp only [paperThemes]
    simp at h
    rcases h with h | h | h | h | h <;> simp [h]
  · simp [paperThemes]

/-- A theme outside the enum is coerced to general. -/
theorem validTheme_of_not_mem {t : String} (h : t ∉ paperThemes) :
    validTheme t = "general" := by
  unfold validTheme
  rw [if_neg]
  intro hc
  apply h
  simp only [List.contains, List.elem_eq_mem, decide_eq_true_eq] at hc
  simp at hc
  simp only [paperThemes]
  rcases hc with h | h | h | h | h <;> simp [h]

/-- Claim C7: every analysis request, in both `App` variants, carries a
response schema whose top-level fields are exactly title, subtitle,
journal, introTitle, summary, authors (array of name/role objects), theme
(an enum of the six theme values), concepts (array of
title/description/type objects) and impact. -/
theorem analysis_request_schema_exact (text : String) (b64 : Option String) :
    (buildRequestApp text b64).responseSchema = analysisResponseSchema ∧
    (buildRequest3 text b64).responseSchema = analysisResponseSchema ∧
    analysisResponseSchema.props.map Prod.fst =
      ["title", "subtitle", "journal", "introTitle", "summary",
       "authors", "theme", "concepts", "impact"] ∧
    analysisResponseSchema.props.lookup "authors" =
      some (GType.array (GType.object
        [("name", GType.string none), ("role", GType.string none)])) ∧
    analysisResponseSchema.props.lookup "theme" =
      some (GType.string (some ["quantum", "ai", "biology", "cosmos", "material", "general"])) ∧
    analysisResponseSchema.props.lookup "concepts" =
      some (GType.array (GType.object
        [("title", GType.string none),
         ("description", GType.string none),
         ("type", GType.string (some ["process", "structure", "abstract"]))])) ∧
    analysisResponseSchema.props.lookup "impact" = some (GType.string none) :=
  ⟨rfl, rfl, rfl, rfl, rfl, rfl, rfl⟩

/-- Claim C8: without a selected file the request text carries only the
first 30000 characters of the pasted text (a prefix, silently truncated,
the whole text when it is short enough); with a selected file the pasted
text follows the inlined PDF untruncated as user notes.  Both `App`
variants behave alike. -/
theorem analysis_payload_truncation (text b64 : String) :
    buildPayloadApp text none =
      [ContentPart.text (promptInstructionsApp ++ "\n\nPaper Text to analyze:\n" ++
        jsSubstring text 30000)] ∧
    buildPayload3 text none =
      [ContentPart.text (promptInstructions3 ++ "\n\nPaper Text:\n" ++
        jsSubstring text 30000)] ∧
    (jsSubstring text 30000).data.length ≤ 30000 ∧
    (jsSubstring text 30000).data <+: text.data ∧
    (text.data.length ≤ 30000 → jsSubstring text 30000 = text) ∧
    buildPayloadApp text (some b64) =
      [ContentPart.inlineData "application/pdf" b64,
       ContentPart.text (promptInstructionsApp ++ "\n\nAdditional user notes: " ++ text)] ∧
    buildPayload3 text (some b64) =
      [ContentPart.inlineData "application/pdf" b64,
       ContentPart.text (promptInstructions3 ++ "\n\nUser Notes: " ++ text)] := by
  refine ⟨rfl, rfl, ?_, ?_, ?_, rfl, rfl⟩
  · show (text.data.take 30000).length ≤ 30000
    rw [List.length_take]
    exact Nat.min_le_left _ _
  · exact List.take_prefix _ _
  · intro h
    show (⟨text.data.take 30000⟩ : String) = text
    rw [List.take_of_length_le h]

/-- Witness for C8 at a concrete short input. -/
theorem analysis_payload_truncation_witness : jsSubstring "abc" 30000 = "abc" :=
  (analysis_payload_truncation "abc" "x").2.2.2.2.1 (by decide)

/-- Claim C10: the concept filter returns exactly the concepts whose title
or description contains the search term case-insensitively, the displayed
count is the length of that filtered list, and the empty search term is
the identity. -/
theorem concept_filter_exact (term : String) (cs : List KeyConcept) :
    filteredConcepts term cs = cs.filter (conceptMatches term) ∧
    (∀ c, c ∈ filteredConcepts term cs ↔ c ∈ cs ∧ conceptMatches term c = true) ∧
    filteredConcepts "" cs = cs ∧
    displayedResultCount term cs = (cs.filter (conceptMatches term)).length := by
  have hfilter : filteredConcepts term cs = cs.filter (conceptMatches term) := by
    by_cases h : term = ""
    · subst h
      rw [filteredConcepts, if_pos rfl]
      exact (List.filter_eq_self.mpr fun c _ => conceptMatches_empty c).symm
    · rw [filteredConcepts, if_neg h]
  refine ⟨hfilter, ?_, ?_, ?_⟩
  · intro c
    rw [hfilter]
    simp [List.mem_filter]
  · rw [filteredConcepts, if_pos rfl]
  · rw [displayedResultCount, hfilter]

/-- Claim C9: for every theme string, each hero-scene variant resolves a
defined configuration that is one of the table entries; an unknown theme
falls back to the quantum entry (lookup-or-quantum variants) or to the
general entry (safe-theme variant), so the lookup never yields an
undefined entry. -/
theorem hero_theme_lookup_total (t : String) :
    heroColorsDyn t ∈ THEME_COLORS.map Prod.snd ∧
    heroConfig000 t ∈ THEMES.map Prod.snd ∧
    heroColors001 t ∈ THEME_COLORS.map Prod.snd ∧
    THEME_COLORS.lookup (safeTheme001 t) ≠ none ∧
    (THEME_COLORS.lookup t = none →
      heroColorsDyn t = quantumSceneColors ∧ heroColors001 t = generalSceneColors) ∧
    (THEMES.lookup t = none → heroConfig000 t = quantumThemeConfig) := by
  have hsafe : THEME_COLORS.lookup (safeTheme001 t) =
      some (heroColors001 t) := by
    rw [safeTheme001]
    cases h : THEME_COLORS.lookup t with
    | none => rw [if_neg (by simp [h])]; rw [heroColors001, safeTheme001, if_neg (by simp [h])]; rfl
    | some c => rw [if_pos (by simp [h])]; rw [heroColors001, safeTheme001, if_pos (by simp [h]), h]; rfl
  refine ⟨?_, ?_, lookup_mem_snd hsafe, by simp [hsafe], ?_, ?_⟩
  · cases h : THEME_COLORS.lookup t with
    | none => rw [heroColorsDyn, h]; decide
    | some c => rw [heroColorsDyn, h]; exact lookup_mem_snd h
  · cases h : THEMES.lookup t with
    | none => rw [heroConfig000, h]; decide
    | some c => rw [heroConfig000, h]; exact lookup_mem_snd h
  · intro h
    constructor
    · rw [heroColorsDyn, h]; rfl
    · rw [heroColors001, safeTheme001, if_neg (by simp [h])]; rfl
  · intro h
    rw [heroConfig000, h]; rfl

/-- Witness for C9 at a theme outside the enum. -/
theorem hero_theme_lookup_total_witness :
    heroColorsDyn "chemistry" = quantumSceneColors ∧
    heroColors001 "chemistry" = generalSceneColors ∧
    heroConfig000 "chemistry" = quantumThemeConfig := by
  refine ⟨((hero_theme_lookup_total "chemistry").2.2.2.2.1 (by decide)).1,
          ((hero_theme_lookup_total "chemistry").2.2.2.2.1 (by decide)).2,
          (hero_theme_lookup_total "chemistry").2.2.2.2.2 (by decide)⟩

/-- Claim C5: a file offered to the selection or drop handlers becomes the
selected file exactly when its MIME type is application/pdf; otherwise one
alert is shown and the selection is unchanged.  Both the `InputModal`
validator and the `src/App.tsx` change handler behave alike. -/
theorem pdf_file_gate (sel : Option FileRec) (f : FileRec) :
    (f.type = "application/pdf" →
      validateAndSetFile sel (some f) = (some f, []) ∧
      handleFileSelectApp sel (some f) = (some f, [])) ∧
    (f.type ≠ "application/pdf" →
      validateAndSetFile sel (some f) = (sel, [pdfAlertMsg]) ∧
      handleFileSelectApp sel (some f) = (sel, [pdfAlertMsg])) := by
  constructor <;> intro h <;>
    simp [validateAndSetFile, handleFileSelectApp, h]

/-- Witness for C5 on a PDF and a PNG file. -/
theorem pdf_file_gate_witness :
    validateAndSetFile none (some ⟨"p.pdf", 7, "application/pdf"⟩) =
      (some ⟨"p.pdf", 7, "application/pdf"⟩, []) ∧
    validateAndSetFile none (some ⟨"p.png", 7, "image/png"⟩) =
      (none, [pdfAlertMsg]) :=
  ⟨((pdf_file_gate none ⟨"p.pdf", 7, "application/pdf"⟩).1 rfl).1,
   ((pdf_file_gate none ⟨"p.png", 7, "image/png"⟩).2 (by decide)).1⟩

/-- Claim C6: the status-label trace of every analysis run follows the
fixed linear order uploading, reading, analyzing, generating — the trace
is always a prefix of that order (the full order unless the file encoding
fails, which stops it after reading), so the label never moves backwards;
the `InputModal` loading view lists the same labels in the same order. -/
theorem analysis_step_order (s : AppState3) (text : String)
    (file : Option (Except Unit String)) (api : Except Unit ParsedData) :
    (handleAnalyze3 s text file api).2 <+: analysisStepOrder ∧
    ((handleAnalyze3 s text file api).2 = analysisStepOrder ∨
     (handleAnalyze3 s text file api).2 = ["uploading", "reading"]) ∧
    inputModalSteps.map Prod.fst = analysisStepOrder := by
  have h : (handleAnalyze3 s text file api).2 = analysisStepOrder ∨
      (handleAnalyze3 s text file api).2 = ["uploading", "reading"] := by
    rcases file with _ | e
    · left; rfl
    · rcases e with e | b
      · right; rfl
      · left; rfl
  refine ⟨?_, h, rfl⟩
  rcases h with h | h
  · simp [h]
  · rw [h]; exact ⟨["analyzing", "generating"], rfl⟩

/-- The initial page state of the revised `App` variant (its `useState`
initial values for the fields modelled here). -/
def initState3 : AppState3 :=
  ⟨false, ALPHA_QUBIT_DATA, false, false, "uploading", none⟩

/-- The initial page state of `src/App.tsx`. -/
def initStateApp : AppStateA :=
  ⟨false, ALPHA_QUBIT_DATA, false, "", none, false⟩

/-- A concrete complete parsed response used by witnesses. -/
def sampleParsed : ParsedData where
  title := "Sample Paper"
  subtitle := "A short tagline"
  journal := "Journal X"
  introTitle := "The Intro"
  summary := "Summary paragraph."
  authors := [⟨"A. Author", "Researcher"⟩]
  theme := "ai"
  concepts := [⟨"Concept", "Description", "process"⟩]
  impact := "Impact paragraph."

/-- Claim C1: each successful analysis stores a record built only from the
parsed response (plus the url field, and in the revised variant the
coerced theme), and each reset stores the hardcoded default; no field of
the previous record survives — the right-hand sides below mention nothing
of the prior state. -/
theorem paper_record_replaced_wholesale :
    (∀ (s : AppState3) (text b : String) (d : ParsedData), d.title ≠ "" →
      (handleAnalyze3 s text (some (Except.ok b)) (Except.ok d)).1.paperData =
        parsedToPaper3 d ∧
      (handleAnalyze3 s text none (Except.ok d)).1.paperData = parsedToPaper3 d) ∧
    (∀ (s : AppStateA) (encode : Except Unit String) (d : ParsedData),
      ¬(jsTrim s.inputText = "" ∧ s.selectedFile = none) →
      (s.selectedFile = none ∨ ∃ b, encode = Except.ok b) →
      d.title ≠ "" →
      (handleAnalyzeApp s encode (Except.ok d)).1.paperData = parsedToPaperApp d) ∧
    (∀ s : AppState3, (resetToDemo3 s).paperData = ALPHA_QUBIT_DATA) ∧
    (∀ s : AppStateA, (resetToDemoApp s).paperData = ALPHA_QUBIT_DATA) := by
  refine ⟨?_, ?_, fun s => rfl, fun s => rfl⟩
  · intro s text b d hd
    constructor <;> simp [handleAnalyze3, handleAnalyzeApi3, hd]
  · intro s enc d hguard henc hd
    rcases henc with hfile | ⟨b, rfl⟩
    · have htrim : jsTrim s.inputText ≠ "" := fun h => hguard ⟨h, hfile⟩
      simp [handleAnalyzeApp, hfile, htrim, handleAnalyzeApiApp, hd]
    · cases hsel : s.selectedFile with
      | none =>
        have htrim : jsTrim s.inputText ≠ "" := fun h => hguard ⟨h, hsel⟩
        simp [handleAnalyzeApp, hsel, htrim, handleAnalyzeApiApp, hd]
      | some f => simp [handleAnalyzeApp, hsel, handleAnalyzeApiApp, hd]

/-- Witness for C1 on a concrete run and reset. -/
theorem paper_record_replaced_wholesale_witness :
    (handleAnalyze3 initState3 "txt" none (Except.ok sampleParsed)).1.paperData =
      parsedToPaper3 sampleParsed ∧
    (resetToDemo3 initState3).paperData = ALPHA_QUBIT_DATA :=
  ⟨(paper_record_replaced_wholesale.1 initState3 "txt" "b" sampleParsed
      (by decide)).2,
   paper_record_replaced_wholesale.2.2.1 initState3⟩

/-- Claim C2: a parsed response with a non-empty title replaces the
displayed record with the parsed data and marks it custom, in both `App`
variants. -/
theorem successful_analysis_replaces_record :
    (∀ (s : AppState3) (text : String) (file : Option (Except Unit String))
       (d : ParsedData),
      (file = none ∨ ∃ b, file = some (Except.ok b)) →
      d.title ≠ "" →
      (handleAnalyze3 s text file (Except.ok d)).1.paperData = parsedToPaper3 d ∧
      (handleAnalyze3 s text file (Except.ok d)).1.isCustom = true) ∧
    (∀ (s : AppStateA) (encode : Except Unit String) (d : ParsedData),
      ¬(jsTrim s.inputText = "" ∧ s.selectedFile = none) →
      (s.selectedFile = none ∨ ∃ b, encode = Except.ok b) →
      d.title ≠ "" →
      (handleAnalyzeApp s encode (Except.ok d)).1.paperData = parsedToPaperApp d ∧
      (handleAnalyzeApp s encode (Except.ok d)).1.isCustom = true) := by
  constructor
  · intro s text file d hfile hd
    rcases hfile with rfl | ⟨b, rfl⟩ <;>
      constructor <;> simp [handleAnalyze3, handleAnalyzeApi3, hd]
  · intro s enc d hguard henc hd
    rcases henc with hfile | ⟨b, rfl⟩
    · have htrim : jsTrim s.inputText ≠ "" := fun h => hguard ⟨h, hfile⟩
      constructor <;> simp [handleAnalyzeApp, hfile, htrim, handleAnalyzeApiApp, hd]
    · cases hsel : s.selectedFile with
      | none =>
        have htrim : jsTrim s.inputText ≠ "" := fun h => hguard ⟨h, hsel⟩
        constructor <;> simp [handleAnalyzeApp, hsel, htrim, handleAnalyzeApiApp, hd]
      | some f =>
        constructor <;> simp [handleAnalyzeApp, hsel, handleAnalyzeApiApp, hd]

/-- Witness for C2 on a concrete run. -/
theorem successful_analysis_replaces_record_witness :
    (handleAnalyze3 initState3 "txt" none (Except.ok sampleParsed)).1.paperData =
      parsedToPaper3 sampleParsed ∧
    (handleAnalyze3 initState3 "txt" none (Except.ok sampleParsed)).1.isCustom = true :=
  successful_analysis_replaces_record.1 initState3 "txt" none sampleParsed
    (Or.inl rfl) (by decide)

/-- A parseable but incomplete response: every field empty, in particular
no title. -/
def incompleteParsed : ParsedData :=
  ⟨"", "", "", "", "", [], "", [], ""⟩

/-- A concrete page state of `src/App.tsx` with pasted text and the modal
open. -/
def c3State : AppStateA :=
  ⟨true, ALPHA_QUBIT_DATA, false, "some pasted abstract", none, false⟩

/-- Counterexample to claim C3 as stated: in `src/App.tsx` a parseable but
incomplete analysis response (missing title) is a failed analysis that
produces no user-visible message at all — the alert list is empty, not a
single generic message (the record, the custom flag and the modal are
indeed unchanged, so the run visibly failed silently). -/
theorem silent_incomplete_response_counterexample :
    (handleAnalyzeApp c3State (Except.ok "") (Except.ok incompleteParsed)).2 = [] ∧
    (handleAnalyzeApp c3State (Except.ok "") (Except.ok incompleteParsed)).1.paperData =
      c3State.paperData ∧
    (handleAnalyzeApp c3State (Except.ok "") (Except.ok incompleteParsed)).1.isCustom =
      c3State.isCustom ∧
    (handleAnalyzeApp c3State (Except.ok "") (Except.ok incompleteParsed)).1.showInputModal =
      c3State.showInputModal := by
  refine ⟨?_, ?_, ?_, ?_⟩ <;> rfl

/-- Claim C3 as amended: every analysis failure leaves the paper record,
the custom flag and the modal visibility unchanged; in the revised `App`
variant every failure (encoding error, API/parse error, missing title)
additionally sets exactly the one generic error message, while in
`src/App.tsx` the thrown failures alert exactly the one generic message
but a parseable response without a title fails silently with no
message. -/
theorem analysis_failure_atomic :
    (∀ (s : AppState3) (text : String) (api : Except Unit ParsedData),
      (handleAnalyze3 s text (some (Except.error ())) api).1.paperData = s.paperData ∧
      (handleAnalyze3 s text (some (Except.error ())) api).1.isCustom = s.isCustom ∧
      (handleAnalyze3 s text (some (Except.error ())) api).1.showInputModal =
        s.showInputModal ∧
      (handleAnalyze3 s text (some (Except.error ())) api).1.analysisError =
        some analysisFailedMsg3) ∧
    (∀ (s : AppState3) (text : String) (file : Option (Except Unit String))
       (api : Except Unit ParsedData),
      (file = none ∨ ∃ b, file = some (Except.ok b)) →
      (api = Except.error () ∨ ∃ d, api = Except.ok d ∧ d.title = "") →
      (handleAnalyze3 s text file api).1.paperData = s.paperData ∧
      (handleAnalyze3 s text file api).1.isCustom = s.isCustom ∧
      (handleAnalyze3 s text file api).1.showInputModal = s.showInputModal ∧
      (handleAnalyze3 s text file api).1.analysisError = some analysisFailedMsg3) ∧
    (∀ (s : AppStateA) (f : FileRec) (api : Except Unit ParsedData),
      s.selectedFile = some f →
      (handleAnalyzeApp s (Except.error ()) api).1.paperData = s.paperData ∧
      (handleAnalyzeApp s (Except.error ()) api).1.isCustom = s.isCustom ∧
      (handleAnalyzeApp s (Except.error ()) api).1.showInputModal = s.showInputModal ∧
      (handleAnalyzeApp s (Except.error ()) api).2 = [analysisFailedMsgApp]) ∧
    (∀ (s : AppStateA) (encode : Except Unit String),
      ¬(jsTrim s.inputText = "" ∧ s.selectedFile = none) →
      (s.selectedFile = none ∨ ∃ b, encode = Except.ok b) →
      (handleAnalyzeApp s encode (Except.error ())).1.paperData = s.paperData ∧
      (handleAnalyzeApp s encode (Except.error ())).1.isCustom = s.isCustom ∧
      (handleAnalyzeApp s encode (Except.error ())).1.showInputModal =
        s.showInputModal ∧
      (handleAnalyzeApp s encode (Except.error ())).2 = [analysisFailedMsgApp]) ∧
    (∀ (s : AppStateA) (encode : Except Unit String) (d : ParsedData),
      ¬(jsTrim s.inputText = "" ∧ s.selectedFile = none) →
      (s.selectedFile = none ∨ ∃ b, encode = Except.ok b) →
      d.title = "" →
      (handleAnalyzeApp s encode (Except.ok d)).1.paperData = s.paperData ∧
      (handleAnalyzeApp s encode (Except.ok d)).1.isCustom = s.isCustom ∧
      (handleAnalyzeApp s encode (Except.ok d)).1.showInputModal = s.showInputModal ∧
      (handleAnalyzeApp s encode (Except.ok d)).2 = []) := by
  refine ⟨?_, ?_, ?_, ?_, ?_⟩
  · intro s text api
    refine ⟨rfl, rfl, rfl, rfl⟩
  · intro s text file api hfile hapi
    rcases hapi with rfl | ⟨d, rfl, hd⟩
    · rcases hfile with rfl | ⟨b, rfl⟩ <;> refine ⟨?_, ?_, ?_, ?_⟩ <;>
        simp [handleAnalyze3, handleAnalyzeApi3]
    · rcases hfile with rfl | ⟨b, rfl⟩ <;> refine ⟨?_, ?_, ?_, ?_⟩ <;>
        simp [handleAnalyze3, handleAnalyzeApi3, hd]
  · intro s f api hsel
    have hguard : ¬(jsTrim s.inputText = "" ∧ s.selectedFile = none) := by
      simp [hsel]
    refine ⟨?_, ?_, ?_, ?_⟩ <;> simp [handleAnalyzeApp, hsel]
  · intro s enc hguard henc
    rcases henc with hfile | ⟨b, rfl⟩
    · have htrim : jsTrim s.inputText ≠ "" := fun h => hguard ⟨h, hfile⟩
      refine ⟨?_, ?_, ?_, ?_⟩ <;>
        simp [handleAnalyzeApp, hfile, htrim, handleAnalyzeApiApp]
    · cases hsel : s.selectedFile with
      | none =>
        have htrim : jsTrim s.inputText ≠ "" := fun h => hguard ⟨h, hsel⟩
        refine ⟨?_, ?_, ?_, ?_⟩ <;>
          simp [handleAnalyzeApp, hsel, htrim, handleAnalyzeApiApp]
      | some f =>
        refine ⟨?_, ?_, ?_, ?_⟩ <;>
          simp [handleAnalyzeApp, hsel, handleAnalyzeApiApp]
  · intro s enc d hguard henc hd
    rcases henc with hfile | ⟨b, rfl⟩
    · have htrim : jsTrim s.inputText ≠ "" := fun h => hguard ⟨h, hfile⟩
      refine ⟨?_, ?_, ?_, ?_⟩ <;>
        simp [handleAnalyzeApp, hfile, htrim, handleAnalyzeApiApp, hd]
    · cases hsel : s.selectedFile with
      | none =>
        have htrim : jsTrim s.inputText ≠ "" := fun h => hguard ⟨h, hsel⟩
        refine ⟨?_, ?_, ?_, ?_⟩ <;>
          simp [handleAnalyzeApp, hsel, htrim, handleAnalyzeApiApp, hd]
      | some f =>
        refine ⟨?_, ?_, ?_, ?_⟩ <;>
          simp [handleAnalyzeApp, hsel, handleAnalyzeApiApp, hd]

/-- Witness for the amended C3 on a concrete failing run. -/
theorem analysis_failure_atomic_witness :
    (handleAnalyze3 initState3 "txt" none (Except.error ())).1.paperData =
      initState3.paperData ∧
    (handleAnalyze3 initState3 "txt" none (Except.error ())).1.analysisError =
      some analysisFailedMsg3 := by
  have h := analysis_failure_atomic.2.1 initState3 "txt" none (Except.error ())
    (Or.inl rfl) (Or.inl rfl)
  exact ⟨h.1, h.2.2.2⟩

/-- A parsed response whose theme lies outside the six-value enum. -/
def chemParsed : ParsedData where
  title := "A Chemistry Paper"
  subtitle := "Sub"
  journal := "J"
  introTitle := "I"
  summary := "S"
  authors := []
  theme := "chemistry"
  concepts := []
  impact := "Imp"

/-- A concrete page state of `src/App.tsx` with pasted text. -/
def c4State : AppStateA :=
  ⟨true, ALPHA_QUBIT_DATA, false, "pasted chemistry paper text", none, false⟩

/-- Counterexample to claim C4 as stated: `src/App.tsx` spreads the parsed
response into the stored record without any theme coercion, so a parsed
theme outside the six-value enum is stored verbatim. -/
theorem uncoerced_theme_counterexample :
    (handleAnalyzeApp c4State (Except.ok "") (Except.ok chemParsed)).1.paperData.theme =
      "chemistry" ∧
    "chemistry" ∉ paperThemes := by
  refine ⟨rfl, by decide⟩

/-- Claim C4 as amended: in the revised `App` variant the theme invariant
holds — the default record, every reset and every stored analysis result
carry a theme in the six-value enum, and a parsed theme outside the enum
is coerced to general before storing; `src/App.tsx`, however, stores the
parsed theme unchanged, so its invariant relies on the response honouring
the schema. -/
theorem stored_theme_in_enum :
    ALPHA_QUBIT_DATA.theme ∈ paperThemes ∧
    (∀ s : AppState3, (resetToDemo3 s).paperData.theme ∈ paperThemes) ∧
    (∀ s : AppStateA, (resetToDemoApp s).paperData.theme ∈ paperThemes) ∧
    (∀ (s : AppState3) (text : String) (file : Option (Except Unit String))
       (api : Except Unit ParsedData),
      s.paperData.theme ∈ paperThemes →
      (handleAnalyze3 s text file api).1.paperData.theme ∈ paperThemes) ∧
    (∀ t : String, t ∉ paperThemes → validTheme t = "general") ∧
    (∀ (s : AppStateA) (encode : Except Unit String) (d : ParsedData),
      ¬(jsTrim s.inputText = "" ∧ s.selectedFile = none) →
      (s.selectedFile = none ∨ ∃ b, encode = Except.ok b) →
      d.title ≠ "" →
      (handleAnalyzeApp s encode (Except.ok d)).1.paperData.theme = d.theme) := by
  refine ⟨by decide,
    fun s => by show ALPHA_QUBIT_DATA.theme ∈ paperThemes; decide,
    fun s => by show ALPHA_QUBIT_DATA.theme ∈ paperThemes; decide, ?_,
    fun t ht => validTheme_of_not_mem ht, ?_⟩
  · intro s text file api hs
    rcases file with _ | e
    · rcases api with e | d
      · simpa [handleAnalyze3, handleAnalyzeApi3] using hs
      · by_cases hd : d.title = ""
        · simpa [handleAnalyze3, handleAnalyzeApi3, hd] using hs
        · simp [handleAnalyze3, handleAnalyzeApi3, hd, parsedToPaper3]
          exact validTheme_mem d.theme
    · rcases e with e | b
      · simpa [handleAnalyze3] using hs
      · rcases api with e | d
        · simpa [handleAnalyze3, handleAnalyzeApi3] using hs
        · by_cases hd : d.title = ""
          · simpa [handleAnalyze3, handleAnalyzeApi3, hd] using hs
          · simp [handleAnalyze3, handleAnalyzeApi3, hd, parsedToPaper3]
            exact validTheme_mem d.theme
  · intro s enc d hguard henc hd
    rcases henc with hfile | ⟨b, rfl⟩
    · have htrim : jsTrim s.inputText ≠ "" := fun h => hguard ⟨h, hfile⟩
      simp [handleAnalyzeApp, hfile, htrim, handleAnalyzeApiApp, hd, parsedToPaperApp]
    · cases hsel : s.selectedFile with
      | none =>
        have htrim : jsTrim s.inputText ≠ "" := fun h => hguard ⟨h, hsel⟩
        simp [handleAnalyzeApp, hsel, htrim, handleAnalyzeApiApp, hd, parsedToPaperApp]
      | some f =>
        simp [handleAnalyzeApp, hsel, handleAnalyzeApiApp, hd, parsedToPaperApp]

/-- Witness for the amended C4 on a concrete run with an out-of-enum
parsed theme. -/
theorem stored_theme_in_enum_witness :
    (handleAnalyze3 initState3 "txt" none (Except.ok chemParsed)).1.paperData.theme ∈
      paperThemes ∧
    validTheme "chemistry" = "general" := by
  refine ⟨stored_theme_in_enum.2.2.2.1 initState3 "txt" none (Except.ok chemParsed)
      (by decide),
    stored_theme_in_enum.2.2.2.2.1 "chemistry" (by decide)⟩
